import Mathlib

/-!
Verification of the SoundWave audio visualizer core against its
natural-language specification.

The development shallowly embeds the relevant parts of the source:

* the numeric safety library and the gradient construction wrappers of
  the video export module (src/unnamed/part_002, lines 343-426) and of
  the live canvas (src/components/main-layout.tsx, lines 49-105);
* the peak-hold cap update of the bar variant (part_002 lines 639-658,
  main-layout.tsx lines 381-410);
* the particle life dynamics of the fireworks variant (part_002 lines
  2005-2134, main-layout.tsx lines 1786-1912);
* the random-amplitude heartbeat trigger of the pulse-trace variant
  (part_002 lines 1430-1442);
* the shatter-glass (spheres) renderer of the export module (part_002
  lines 714-985), tracking the lexical scope of the identifier
  scaleFactor;
* the export pipeline: the wall-clock frame loop (part_002 lines
  2736-2793), the recorder onstop handler (lines 2711-2731) and
  cancelExport (lines 2796-2812), together with the asynchronous task
  queue of the host event loop;
* the effect variant enumeration (main-layout.tsx lines 2880-2893), the
  live renderer registry (lines 2475-2488) and the selector list
  (src/app/effects/page.tsx lines 413-427).

Numbers are modeled as exact rationals; the JavaScript values NaN and
plus/minus Infinity, which the safety library must absorb, are adjoined
as explicit constructors of the type JsNum.  All claimed properties are
order-theoretic (clamps, ranges, comparisons) or exact (remainder of a
value by 360, rounding), so the rational model is faithful where the
claims live.
-/

namespace SoundWave

/-- A JavaScript number as consumed by the numeric safety library: a
finite value (modeled exactly as a rational) or one of the non-finite
values NaN, Infinity, -Infinity. -/
inductive JsNum where
  | num (q : ℚ)
  | nan
  | posInf
  | negInf
deriving DecidableEq, Repr

/-- Truncation toward zero, the rounding used by the JavaScript remainder
operator a percent b. -/
def ratTrunc (q : ℚ) : ℤ :=
  if 0 ≤ q then ⌊q⌋ else ⌈q⌉

/-- The JavaScript remainder operator on finite numbers:
a - b * trunc(a / b), with the sign of the dividend. -/
def jsRem (a b : ℚ) : ℚ :=
  a - b * ratTrunc (a / b)

/-- JavaScript Math.round: round half toward positive infinity. -/
def jsRound (q : ℚ) : ℤ :=
  ⌊q + 1/2⌋

/-- safeNumber from part_002 lines 343-346 (identical in
main-layout.tsx lines 49-52): a non-finite input is replaced by the
caller-supplied fallback, a finite input passes through. -/
def safeNumber : JsNum → ℚ → ℚ
  | JsNum.num q, _ => q
  | _, fallback => fallback

/-- safeAlpha from part_002 lines 348-351: clamp into the unit interval
after repairing non-finite input to 0. -/
def safeAlpha (value : JsNum) : ℚ :=
  max 0 (min 1 (safeNumber value 0))

/-- safeHue from part_002 lines 353-356: wrap modulo 360 with the
double-remainder idiom ((v percent 360) + 360) percent 360. -/
def safeHue (value : JsNum) : ℚ :=
  jsRem (jsRem (safeNumber value 0) 360 + 360) 360

/-- safePct from part_002 lines 358-361: clamp into the interval
from 0 to 100 after repairing non-finite input to the fallback. -/
def safePct (value : JsNum) (fallback : ℚ) : ℚ :=
  max 0 (min 100 (safeNumber value fallback))

/-- safeRGB from part_002 lines 363-365: round, then clamp into the
integer range 0 to 255. -/
def safeRGB (value : JsNum) : ℚ :=
  max 0 (min 255 ((jsRound (safeNumber value 0) : ℤ) : ℚ))

theorem ratTrunc_eq_floor {q : ℚ} (h : 0 ≤ q) : ratTrunc q = ⌊q⌋ := by
  simp [ratTrunc, h]

theorem ratTrunc_eq_ceil {q : ℚ} (h : q < 0) : ratTrunc q = ⌈q⌉ := by
  simp [ratTrunc, not_le.mpr h]

theorem jsRem_nonneg_bounds {a b : ℚ} (hb : 0 < b) (ha : 0 ≤ a) :
    0 ≤ jsRem a b ∧ jsRem a b < b := by
  have hab : 0 ≤ a / b := div_nonneg ha hb.le
  have hfr : jsRem a b = b * Int.fract (a / b) := by
    rw [jsRem, ratTrunc_eq_floor hab, Int.fract]
    field_simp
  constructor
  · rw [hfr]
    exact mul_nonneg hb.le (Int.fract_nonneg _)
  · rw [hfr]
    calc b * Int.fract (a / b) < b * 1 :=
          (mul_lt_mul_left hb).mpr (Int.fract_lt_one _)
    _ = b := mul_one b

theorem jsRem_neg_bounds {a b : ℚ} (hb : 0 < b) (ha : a < 0) :
    -b < jsRem a b ∧ jsRem a b ≤ 0 := by
  have hab : a / b < 0 := div_neg_of_neg_of_pos ha hb
  have hrw : jsRem a b = -(b * (⌈a / b⌉ - a / b)) := by
    have hbne : b ≠ 0 := ne_of_gt hb
    rw [jsRem, ratTrunc_eq_ceil hab]
    field_simp
    ring
  have h0 : (0 : ℚ) ≤ ⌈a / b⌉ - a / b := by
    have := Int.le_ceil (a / b)
    linarith
  have h1 : ⌈a / b⌉ - a / b < 1 := by
    have := Int.ceil_lt_add_one (a / b)
    linarith
  constructor
  · rw [hrw]
    have : b * (⌈a / b⌉ - a / b) < b * 1 := (mul_lt_mul_left hb).mpr h1
    linarith
  · rw [hrw]
    have : 0 ≤ b * (⌈a / b⌉ - a / b) := mul_nonneg hb.le h0
    linarith

theorem safeHue_mem {v : JsNum} : 0 ≤ safeHue v ∧ safeHue v < 360 := by
  have h360 : (0 : ℚ) < 360 := by norm_num
  set q : ℚ := safeNumber v 0 with hq
  have hinner : -360 < jsRem q 360 ∧ jsRem q 360 < 360 := by
    rcases le_or_lt 0 q with h | h
    · have := jsRem_nonneg_bounds h360 h
      exact ⟨by linarith [this.1], this.2⟩
    · have := jsRem_neg_bounds h360 h
      exact ⟨this.1, by linarith [this.2]⟩
  have hshift : 0 ≤ jsRem q 360 + 360 := by linarith [hinner.1]
  have := jsRem_nonneg_bounds h360 hshift
  exact ⟨this.1, this.2⟩

/-- C8. For every numeric input, including NaN and plus/minus Infinity,
each numeric safety function lands in its documented domain: safeHue in
the half-open interval from 0 to 360, safePct between 0 and 100 for any
fallback, safeAlpha between 0 and 1, and safeRGB an integer between 0
and 255.  All results are finite by construction (they are rationals). -/
theorem safe_functions_in_domain :
    ∀ (x : JsNum) (fb : ℚ),
      (0 ≤ safeHue x ∧ safeHue x < 360) ∧
      (0 ≤ safePct x fb ∧ safePct x fb ≤ 100) ∧
      (0 ≤ safeAlpha x ∧ safeAlpha x ≤ 1) ∧
      (∃ n : ℤ, safeRGB x = (n : ℚ) ∧ 0 ≤ n ∧ n ≤ 255) := by
  intro x fb
  refine ⟨safeHue_mem, ⟨le_max_left _ _, ?_⟩, ⟨le_max_left _ _, ?_⟩, ?_⟩
  · apply max_le (by norm_num)
    exact le_trans (min_le_left _ _) (le_refl _)
  · apply max_le (by norm_num)
    exact le_trans (min_le_left _ _) (le_refl _)
  · refine ⟨max 0 (min 255 (jsRound (safeNumber x 0))), ?_, ?_, ?_⟩
    · rw [safeRGB]
      push_cast
      rfl
    · exact le_max_left _ _
    · apply max_le (by norm_num)
      exact le_trans (min_le_left _ _) (le_refl _)

/-- A constructed linear canvas gradient, recorded with the sanitized
coordinates it was built from. -/
structure LinearGradient where
  x0 : ℚ
  y0 : ℚ
  x1 : ℚ
  y1 : ℚ
deriving DecidableEq, Repr

/-- A constructed radial canvas gradient, recorded with the sanitized
coordinates and radii it was built from. -/
structure RadialGradient where
  x0 : ℚ
  y0 : ℚ
  r0 : ℚ
  x1 : ℚ
  y1 : ℚ
  r1 : ℚ
deriving DecidableEq, Repr

def indexSizeErrorMsg : String := "IndexSizeError"

/-- The try/catch of both safe gradient wrappers: an exception of the
underlying primitive becomes null, a constructed gradient passes
through. -/
def exceptToNull {α : Type} (e : Except String α) : Option α :=
  match e with
  | Except.ok g => some g
  | Except.error _ => none

/-- The underlying canvas primitive createLinearGradient.  On finite
arguments (all that can reach it here, since every argument has passed
safeNumber) the canvas API never throws. -/
def createLinearGradientPrim (x0 y0 x1 y1 : ℚ) : Except String LinearGradient :=
  Except.ok ⟨x0, y0, x1, y1⟩

/-- The underlying canvas primitive createRadialGradient: on finite
arguments it throws IndexSizeError exactly when a radius is negative. -/
def createRadialGradientPrim (x0 y0 r0 x1 y1 r1 : ℚ) : Except String RadialGradient :=
  if r0 < 0 ∨ r1 < 0 then Except.error indexSizeErrorMsg
  else Except.ok ⟨x0, y0, r0, x1, y1, r1⟩

/-- safeCreateLinearGradient from part_002 lines 375-394 (identical in
main-layout.tsx lines 81-100): sanitize the four coordinates, return
null when start and end coincide, and convert any exception of the
primitive into null. -/
def safeCreateLinearGradient (x0 y0 x1 y1 : JsNum) : Option LinearGradient :=
  if safeNumber x0 0 = safeNumber x1 0 ∧ safeNumber y0 0 = safeNumber y1 0 then none
  else
    exceptToNull (createLinearGradientPrim (safeNumber x0 0) (safeNumber y0 0)
      (safeNumber x1 0) (safeNumber y1 0))

/-- safeCreateRadialGradient from part_002 lines 396-416 (identical in
main-layout.tsx lines 102-122): sanitize the coordinates, clamp the
inner radius to at least 0 and the outer radius to at least 0.1 (with
fallback 0.1 for a non-finite outer radius), and convert any exception
of the primitive into null. -/
def safeCreateRadialGradient (x0 y0 r0 x1 y1 r1 : JsNum) : Option RadialGradient :=
  exceptToNull (createRadialGradientPrim (safeNumber x0 0) (safeNumber y0 0)
    (max 0 (safeNumber r0 0)) (safeNumber x1 0) (safeNumber y1 0)
    (max (1/10) (safeNumber r1 (1/10))))

/-- C7 counterexample. The claim says that a NaN (or non-positive)
radius makes radial gradient construction return no gradient.  In the
code both radii are repaired instead: NaN falls back to 0 for the inner
radius and to 0.1 for the outer radius, and a real gradient is
returned.  Construction indeed never throws, but the result is not
null. -/
theorem radial_gradient_nan_radius_returns_gradient :
    safeCreateRadialGradient (JsNum.num 0) (JsNum.num 0) JsNum.nan
        (JsNum.num 0) (JsNum.num 0) JsNum.nan =
      some ⟨0, 0, 0, 0, 0, 1/10⟩ := by
  have h1 : createRadialGradientPrim 0 0 (max 0 0) 0 0 (max (1/10 : ℚ) (1/10)) =
      Except.ok ⟨0, 0, 0, 0, 0, 1/10⟩ := by
    rw [createRadialGradientPrim, if_neg]
    · norm_num
    · norm_num
  rw [safeCreateRadialGradient]
  simp only [safeNumber]
  rw [h1, exceptToNull]

/-- C7 amended. Linear gradient construction returns no gradient exactly
when the sanitized start and end points coincide, and never throws;
radial gradient construction never throws and always returns a gradient,
repairing degenerate radii (NaN falls back to 0 inner and 0.1 outer,
negative radii are clamped to those same floors) instead of rejecting
them.  Totality of both wrappers is the never-throws guarantee. -/
theorem safe_gradient_construction_spec :
    ∀ x0 y0 r0 x1 y1 r1 : JsNum,
      (safeCreateLinearGradient x0 y0 x1 y1 = none ↔
        (safeNumber x0 0 = safeNumber x1 0 ∧ safeNumber y0 0 = safeNumber y1 0)) ∧
      (safeCreateRadialGradient x0 y0 r0 x1 y1 r1).isSome = true := by
  intro x0 y0 r0 x1 y1 r1
  constructor
  · rw [safeCreateLinearGradient]
    by_cases h : safeNumber x0 0 = safeNumber x1 0 ∧ safeNumber y0 0 = safeNumber y1 0
    · simp [h]
    · simp [h, createLinearGradientPrim, exceptToNull]
  · have hcond : ¬ (max 0 (safeNumber r0 0) < 0 ∨
        max (1/10 : ℚ) (safeNumber r1 (1/10)) < 0) := by
      push_neg
      refine ⟨le_max_left _ _, ?_⟩
      exact le_trans (by norm_num) (le_max_left _ _)
    rw [safeCreateRadialGradient, createRadialGradientPrim, if_neg hcond, exceptToNull]
    rfl

/-- C7 witness for the amended theorem: a concrete coincident-endpoint
linear gradient yields none, and a concrete all-zero radial gradient is
still constructed. -/
theorem safe_gradient_construction_spec_witness :
    safeCreateLinearGradient (JsNum.num 3) (JsNum.num 4) (JsNum.num 3) (JsNum.num 4) = none ∧
    (safeCreateRadialGradient (JsNum.num 0) (JsNum.num 0) (JsNum.num 0)
      (JsNum.num 0) (JsNum.num 0) (JsNum.num 0)).isSome = true := by
  constructor
  · exact (safe_gradient_construction_spec (JsNum.num 3) (JsNum.num 4) (JsNum.num 0)
      (JsNum.num 3) (JsNum.num 4) (JsNum.num 0)).1.mpr ⟨rfl, rfl⟩
  · exact (safe_gradient_construction_spec (JsNum.num 0) (JsNum.num 0) (JsNum.num 0)
      (JsNum.num 0) (JsNum.num 0) (JsNum.num 0)).2

/-- The instantaneous target height of one bar slot, part_002 line 652
(main-layout.tsx line 402): at least 4 pixels, otherwise proportional to
the sampled value and 65 percent of the surface height. -/
def barTargetHeight (value height : ℚ) : ℚ :=
  max 4 (value * (height * (65/100)))

/-- The peak-hold cap update of the bar variant, part_002 lines 654-658
(main-layout.tsx lines 405-410): the cap rises instantly to a higher
target, otherwise it falls by the fixed decay rate 2.5 but never below
the target. -/
def updateBarCap (targetHeight cap : ℚ) : ℚ :=
  if cap < targetHeight then targetHeight
  else max targetHeight (cap - 5/2)

/-- One tick of the cap array: the loop applies the update to every
slot. -/
def updateBarCaps (targets caps : List ℚ) : List ℚ :=
  List.zipWith updateBarCap targets caps

/-- C9. Each peak-hold cap rises instantly to the instantaneous target
when the target is higher; when the target has dropped the cap falls by
at most the fixed decay rate 2.5 in the tick and never below the
target. -/
theorem updateBarCap_spec :
    ∀ targetHeight cap : ℚ,
      (cap < targetHeight → updateBarCap targetHeight cap = targetHeight) ∧
      (targetHeight ≤ cap → updateBarCap targetHeight cap = max targetHeight (cap - 5/2)) ∧
      targetHeight ≤ updateBarCap targetHeight cap ∧
      cap - 5/2 ≤ updateBarCap targetHeight cap := by
  intro t c
  unfold updateBarCap
  by_cases h : c < t
  · refine ⟨fun _ => by simp [h], fun hle => absurd h (not_lt.mpr hle), ?_, ?_⟩
    · simp [h]
    · simp [h]
      linarith
  · refine ⟨fun hlt => absurd hlt h, fun _ => by simp [h], ?_, ?_⟩
    · simp [h]
    · simp [h]

/-- C9 witness: the example of the claim.  When the target drops from a
cap of 100 to 0 in one tick, the cap of that tick is max 0 (100 - 2.5) =
97.5, which is not below 100 minus the decay rate and not below the
target. -/
theorem updateBarCap_spec_witness :
    updateBarCap 0 100 = max 0 (100 - 5/2) ∧
    (100 : ℚ) - 5/2 ≤ updateBarCap 0 100 ∧
    (0 : ℚ) ≤ updateBarCap 0 100 :=
  ⟨(updateBarCap_spec 0 100).2.1 (by norm_num),
   (updateBarCap_spec 0 100).2.2.2,
   (updateBarCap_spec 0 100).2.2.1⟩

/-- A fireworks particle, part_002 lines 2075-2084 (main-layout.tsx
lines 1850-1861): position, velocity, size, remaining life, initial
life and color hue. -/
structure FwParticle where
  x : ℚ
  y : ℚ
  vx : ℚ
  vy : ℚ
  size : ℚ
  life : ℚ
  maxLife : ℚ
  hue : ℚ
deriving DecidableEq, Repr

/-- The per-tick life decay rate of the fireworks variant, part_002 line
2100 (main-layout.tsx line 1877): 0.018 + (1 - avgEnergy) * 0.025. -/
def decayRate (avgEnergy : ℚ) : ℚ :=
  18/1000 + (1 - avgEnergy) * (25/1000)

/-- The per-particle update of one fireworks tick, part_002 lines
2094-2101 (main-layout.tsx lines 1871-1878): ballistic motion with
gravity 0.18 and damping 0.92, and life decremented by the decay
rate. -/
def updateFwParticle (avgEnergy : ℚ) (p : FwParticle) : FwParticle :=
  { p with
    x := p.x + p.vx
    y := p.y + p.vy
    vx := p.vx * (92/100)
    vy := (p.vy + 18/100) * (92/100)
    life := p.life - decayRate avgEnergy }

/-- One tick of the fireworks particle pool, part_002 lines 2026-2130
(main-layout.tsx lines 1801-1907): the trigger block may push newly
spawned particles, then the pool is filtered to the particles whose
life is still positive, and every survivor is then updated (moved,
damped, life decremented) and drawn.  The spawned list stands for the
pushes of the trigger block; every particle it spawns has positive
life (0.7 plus nonnegative random and scale terms). -/
def fireworksTick (avgEnergy : ℚ) (spawned ps : List FwParticle) : List FwParticle :=
  ((ps ++ spawned).filter (fun p => decide (0 < p.life))).map (updateFwParticle avgEnergy)

def fwDying : FwParticle := ⟨0, 0, 0, 0, 1, 1/100, 1, 0⟩

/-- C10 counterexample. A particle whose life drops to or below zero
during a tick is not removed in that same tick: the filter runs at the
start of the tick, before the decrement, so the dead particle stays in
the pool until the next tick.  Concretely, a particle with life 0.01 at
full energy (decay rate 0.018) ends the tick with life -0.008 yet the
pool still contains it, contradicting removal exactly at the tick on
which life reaches zero. -/
theorem dead_particle_lingers_one_tick :
    (fireworksTick 1 [] [fwDying]).length = 1 ∧
    ∀ q ∈ fireworksTick 1 [] [fwDying], q.life ≤ 0 := by
  have hpos : (0 : ℚ) < fwDying.life := by norm_num [fwDying]
  have hfilter : ([fwDying] ++ []).filter (fun p => decide (0 < p.life)) = [fwDying] := by
    simp [List.filter_cons, hpos]
  constructor
  · rw [fireworksTick, hfilter]
    rfl
  · intro q hq
    rw [fireworksTick, hfilter] at hq
    simp only [List.map_cons, List.map_nil, List.mem_singleton] at hq
    rw [hq]
    norm_num [updateFwParticle, decayRate, fwDying]

/-- C10 amended. In every fireworks tick: each particle of the pool
(old or newly spawned) whose life is still positive survives the filter
and appears, updated, in the next pool; every particle of the next pool
originates from such a live particle, with its life decremented by
exactly the configured decay rate; and for spectrum energies in the
unit interval the decay rate is positive, so life strictly decreases.
A particle whose life has dropped to or below zero is therefore removed
by the filter at the start of the next tick, never earlier. -/
theorem fireworksTick_life_spec :
    ∀ (avgEnergy : ℚ) (spawned ps : List FwParticle),
      (∀ p ∈ ps ++ spawned, 0 < p.life →
        updateFwParticle avgEnergy p ∈ fireworksTick avgEnergy spawned ps) ∧
      (∀ q ∈ fireworksTick avgEnergy spawned ps,
        ∃ p ∈ ps ++ spawned, 0 < p.life ∧ q = updateFwParticle avgEnergy p ∧
          q.life = p.life - decayRate avgEnergy) ∧
      (0 ≤ avgEnergy → avgEnergy ≤ 1 →
        ∀ p : FwParticle, (updateFwParticle avgEnergy p).life < p.life) := by
  intro e spawned ps
  refine ⟨?_, ?_, ?_⟩
  · intro p hp hpos
    rw [fireworksTick]
    exact List.mem_map_of_mem _ (List.mem_filter.mpr ⟨hp, by simpa using hpos⟩)
  · intro q hq
    rw [fireworksTick] at hq
    rcases List.mem_map.mp hq with ⟨p, hpf, hpq⟩
    rcases List.mem_filter.mp hpf with ⟨hmem, hlife⟩
    refine ⟨p, hmem, by simpa using hlife, hpq.symm, ?_⟩
    rw [← hpq]
    rfl
  · intro he0 he1 p
    have hdr : 0 < decayRate e := by
      rw [decayRate]
      nlinarith
    have : (updateFwParticle e p).life = p.life - decayRate e := rfl
    rw [this]
    linarith

def fwLive : FwParticle := ⟨0, 0, 0, 0, 1, 1, 1, 0⟩

/-- C10 witness for the amended theorem: a live particle with life 1
survives the tick at full energy, and its life strictly decreased. -/
theorem fireworksTick_life_spec_witness :
    updateFwParticle 1 fwLive ∈ fireworksTick 1 [] [fwLive] ∧
    (updateFwParticle 1 fwLive).life < fwLive.life :=
  ⟨(fireworksTick_life_spec 1 [] [fwLive]).1 fwLive (by simp)
      (by norm_num [fwLive]),
   (fireworksTick_life_spec 1 [] [fwLive]).2.2 (by norm_num) (by norm_num) fwLive⟩

/-- The heartbeat trigger state of the pulse-trace (particles/ECG)
variant: the fields of state.ecgState touched by the trigger block,
part_002 line 2744 and lines 1430-1442. -/
structure EcgState where
  lastBeat : ℚ
  pulseIndex : ℤ
  currentAmplitude : ℚ
deriving DecidableEq, Repr

/-- The fresh ecgState of a newly constructed state store, part_002
line 2744: x 0 (not modeled here), lastBeat 0, pulseIndex -1, amplitude
1. -/
def ecgInit : EcgState := ⟨0, -1, 1⟩

/-- The heartbeat trigger block of the pulse-trace variant, part_002
lines 1430-1442.  When bass energy exceeds 0.5, no pulse is in flight
(pulseIndex -1) and the 0.2 second cooldown has elapsed, a pulse starts
and its amplitude is drawn from a tri-modal random distribution: the
random source is modeled explicitly as a stream r with a cursor k for
the next draw, exactly the calls Math.random makes (one draw for
baseRand, one more in the two rare branches).  Returns the new state
and the new cursor. -/
def ecgTriggerStep (bass time : ℚ) (st : EcgState) (r : ℕ → ℚ) (k : ℕ) :
    EcgState × ℕ :=
  if 1/2 < bass ∧ st.pulseIndex = -1 ∧ 1/5 < time - st.lastBeat then
    if 8/10 < r k then
      (⟨time, 0, 11/10 + r (k+1) * (2/10)⟩, k + 2)
    else if r k < 3/10 then
      (⟨time, 0, 4/10 + r (k+1) * (2/10)⟩, k + 2)
    else
      (⟨time, 0, 7/10 + bass * (5/10)⟩, k + 1)
  else (st, k)

/-- A replay of the trigger block over a fixed sequence of frames, each
frame carrying the bass energy derived from its spectrum and its
elapsed-time value, threading the state and the random cursor. -/
def ecgReplay : List (ℚ × ℚ) → (ℕ → ℚ) → EcgState → ℕ → EcgState × ℕ
  | [], _, st, k => (st, k)
  | f :: rest, r, st, k =>
    let sk := ecgTriggerStep f.1 f.2 st r k
    ecgReplay rest r sk.1 sk.2

/-- C1 counterexample. Replaying the same single frame (bass energy
0.6, elapsed time 1) against two freshly constructed state stores does
not give the same state trajectory, because the renderer draws from
Math.random, which is not part of the fixed inputs: a run whose first
draw is 0.9 ends with amplitude 1.28, a run whose first draw is 0.5
ends with amplitude 1. -/
theorem ecg_replay_not_deterministic :
    (ecgReplay [(3/5, 1)] (fun _ => 9/10) ecgInit 0).1 ≠
      (ecgReplay [(3/5, 1)] (fun _ => 1/2) ecgInit 0).1 := by
  have hcond : (1/2 : ℚ) < 3/5 ∧ ecgInit.pulseIndex = -1 ∧
      (1/5 : ℚ) < 1 - ecgInit.lastBeat := by
    refine ⟨by norm_num, rfl, by norm_num [ecgInit]⟩
  have h1 : (ecgReplay [(3/5, 1)] (fun _ => 9/10) ecgInit 0).1 =
      ⟨1, 0, 11/10 + 9/10 * (2/10)⟩ := by
    rw [ecgReplay, ecgReplay, ecgTriggerStep, if_pos hcond, if_pos (by norm_num)]
  have h2 : (ecgReplay [(3/5, 1)] (fun _ => 1/2) ecgInit 0).1 =
      ⟨1, 0, 7/10 + (3/5) * (5/10)⟩ := by
    rw [ecgReplay, ecgReplay, ecgTriggerStep, if_pos hcond,
      if_neg (by norm_num), if_neg (by norm_num)]
  rw [h1, h2]
  intro h
  have := congrArg EcgState.currentAmplitude h
  norm_num at this

theorem ecgTriggerStep_cursor_le (bass time : ℚ) (st : EcgState)
    (r : ℕ → ℚ) (k : ℕ) :
    (ecgTriggerStep bass time st r k).2 ≤ k + 2 := by
  rw [ecgTriggerStep]
  split_ifs <;> omega

theorem ecgTriggerStep_congr (bass time : ℚ) (st : EcgState)
    (r1 r2 : ℕ → ℚ) (k : ℕ) (h0 : r1 k = r2 k) (h1 : r1 (k+1) = r2 (k+1)) :
    ecgTriggerStep bass time st r1 k = ecgTriggerStep bass time st r2 k := by
  rw [ecgTriggerStep, ecgTriggerStep, h0, h1]

/-- C1 amended. Each renderer is deterministic in its inputs together
with the stream of values it draws from the random source: two replays
of the same frame sequence from equal initial states agree whenever the
two random streams agree on every draw the replay can consume (at most
two per frame).  The residual nondeterminism of the code is exactly the
unseeded Math.random. -/
theorem ecgReplay_deterministic :
    ∀ (frames : List (ℚ × ℚ)) (r1 r2 : ℕ → ℚ) (st : EcgState) (k : ℕ),
      (∀ i, i < k + 2 * frames.length → r1 i = r2 i) →
      ecgReplay frames r1 st k = ecgReplay frames r2 st k := by
  intro frames
  induction frames with
  | nil => intro r1 r2 st k _; rfl
  | cons f rest ih =>
    intro r1 r2 st k hagree
    have hlen : (f :: rest).length = rest.length + 1 := rfl
    have h0 : r1 k = r2 k := hagree k (by rw [hlen]; omega)
    have h1 : r1 (k+1) = r2 (k+1) := hagree (k+1) (by rw [hlen]; omega)
    have hstep := ecgTriggerStep_congr f.1 f.2 st r1 r2 k h0 h1
    rw [ecgReplay, ecgReplay, hstep]
    apply ih
    intro i hi
    apply hagree
    have hcur := ecgTriggerStep_cursor_le f.1 f.2 st r2 k
    rw [hlen]
    omega

/-- C1 witness for the amended theorem: the trigger frame of the
counterexample replayed against two random streams that agree on the
two consumable draws yields identical trajectories. -/
theorem ecgReplay_deterministic_witness :
    ecgReplay [(3/5, 1)] (fun _ => 9/10) ecgInit 0 =
      ecgReplay [(3/5, 1)] (fun i => if i < 2 then 9/10 else 0) ecgInit 0 := by
  apply ecgReplay_deterministic
  intro i hi
  have h2 : i < 2 := by simpa using hi
  simp [h2]

/-- The mutable state of the export-module spheres (shatter glass)
renderer that its statements touch, part_002 lines 714-985: the shake
scalar, the time of the last bullet hole, and the life values of the
bullet holes and glass shards (positions, velocities and geometry do
not affect which identifiers the statements reference and are dropped
from this life-level model). -/
structure SpheresState where
  shake : ℚ
  lastHoleTime : ℚ
  holes : List ℚ
  shards : List ℚ
deriving DecidableEq, Repr

def referenceErrorMsg : String := "ReferenceError: scaleFactor is not defined"

/-- The binding the identifier scaleFactor resolves to inside the
spheres case block of drawVisualizerByType.  The only declaration of
scaleFactor in the whole export module is the const at part_002 line
1124, inside the braces of the circle case block; the spheres case at
lines 714-985 is a separate brace-scoped block, and no enclosing scope
of drawVisualizerByType declares scaleFactor.  Under JavaScript block
scoping the identifier is therefore unbound in the spheres case, and
evaluating it throws a ReferenceError. -/
def sphereScaleFactor : Option ℚ := none

/-- Evaluation of the identifier scaleFactor in the spheres case:
returns the bound value, or throws a ReferenceError when the scope
chain has no binding. -/
def readScaleFactor (sf : Option ℚ) : Except String ℚ :=
  match sf with
  | some v => Except.ok v
  | none => Except.error referenceErrorMsg

/-- The state-and-control part of the spheres renderer of the export
module, part_002 lines 714-985, with the scope lookup of scaleFactor
made explicit.  Statement by statement: lines 719-725 update the shake
scalar (reading scaleFactor only on loud frames); lines 742-827 spawn a
bullet hole and 15 + floor(25 * avgEnergy) glass shards, reading
scaleFactor, when energy exceeds 0.62 after a 0.12 second cooldown;
lines 829-838 advance shard physics (reading scaleFactor inside the
filter callback, executed only when shards exist) and drop shards whose
life 0.015-decrement reaches zero; lines 841-844 decay hole lives by
0.0025; line 962 computes avatarSize = (75 + avgEnergy * 35) *
scaleFactor unconditionally. -/
def drawSpheresState (sf : Option ℚ) (avgEnergy time : ℚ) (st : SpheresState) :
    Except String SpheresState := do
  let shake1 ←
    if 7/10 < avgEnergy then do
      let v ← readScaleFactor sf
      pure (max st.shake (avgEnergy * 20 * v))
    else pure st.shake
  let shake2 := shake1 * (85/100)
  let s1 ←
    if 62/100 < avgEnergy ∧ 12/100 < time - st.lastHoleTime then do
      let _ ← readScaleFactor sf
      pure { st with
        shake := shake2
        lastHoleTime := time
        holes := st.holes ++ [(1 : ℚ)]
        shards := st.shards ++ List.replicate (15 + (⌊avgEnergy * 25⌋).toNat) (1 : ℚ) }
    else pure { st with shake := shake2 }
  let shards1 ←
    if s1.shards = [] then pure ([] : List ℚ)
    else do
      let _ ← readScaleFactor sf
      pure ((s1.shards.map (fun l => l - 15/1000)).filter (fun l => decide (0 < l)))
  let holes1 := (s1.holes.map (fun l => l - 25/10000)).filter (fun l => decide (0 < l))
  let _ ← readScaleFactor sf
  pure { s1 with holes := holes1, shards := shards1 }

def spheresInit : SpheresState := ⟨0, 0, [], []⟩

/-- C5. The claim says every renderer treats a zero spectrum as an
ordinary input and never raises.  The spheres renderer of the export
module throws a ReferenceError on every call, including the
zero-spectrum idle call with a fresh state store: its unconditional
avatarSize computation (part_002 line 962) reads the identifier
scaleFactor, which is declared only inside the circle case block (line
1124) and is not in scope in the spheres case. -/
theorem drawSpheres_zero_spectrum_throws :
    drawSpheresState sphereScaleFactor 0 0 spheresInit =
      Except.error referenceErrorMsg := by
  norm_num [drawSpheresState, sphereScaleFactor, spheresInit, readScaleFactor]

/-- The elapsed time handed to the renderer by the export frame loop,
part_002 lines 2757-2758: wall-clock milliseconds since export start,
divided by 1000. -/
def exportElapsed (startTime now : ℚ) : ℚ :=
  (now - startTime) / 1000

/-- The progress percentage reported by the export frame loop, part_002
lines 2759-2760: min(elapsed / totalDuration, 1) scaled to percent. -/
def exportProgressPct (elapsed total : ℚ) : ℚ :=
  min (elapsed / total) 1 * 100

/-- The continuation condition of the export frame loop, part_002 line
2779: another frame is scheduled while elapsed is below the track
duration and the recorder is still recording. -/
def animateContinues (elapsed total : ℚ) (recording : Bool) : Bool :=
  decide (elapsed < total) && recording

/-- The elapsed time the renderer sees at frame n of an export run
whose frame callbacks fire at the wall-clock instants of the given
schedule (milliseconds), frame 0 being the call of startExport that
reads performance.now() as startTime. -/
def exportRunElapsed (sched : ℕ → ℚ) (n : ℕ) : ℚ :=
  exportElapsed (sched 0) (sched n)

/-- C2 counterexample. The claim says the export loop advances a
virtual elapsedTime by a fixed target frame interval per frame,
independent of real-time performance.  In the code elapsedTime is the
wall-clock delta: the same frame number 1 sees elapsed 0.016 on a
schedule whose callback fires after 16 ms but elapsed 0.03 on a loaded
machine where it fires after 30 ms, so elapsed is not a function of
the frame number. -/
theorem export_elapsed_is_wall_clock :
    exportRunElapsed (fun i => 16 * i) 1 ≠ exportRunElapsed (fun i => 30 * i) 1 ∧
    exportRunElapsed (fun i => 30 * i) 1 = 3/100 := by
  constructor
  · norm_num [exportRunElapsed, exportElapsed]
  · norm_num [exportRunElapsed, exportElapsed]

/-- C2 amended. The export loop reschedules itself on a fixed 16 ms
timeout (not the display refresh, so it survives a backgrounded tab),
but the elapsedTime it passes to the renderer is the wall-clock time
since export start; the reported progress min(elapsed/total, 1) * 100
is clamped to the interval from 0 to 100, is monotone in wall-clock
time, reaches exactly 100 once elapsed reaches the track duration, and
the loop stops scheduling (and stops the recorder) exactly once elapsed
is at least the duration. -/
theorem export_clock_spec :
    ∀ start now now2 total : ℚ,
      0 < total → start ≤ now → now ≤ now2 →
      (0 ≤ exportProgressPct (exportElapsed start now) total ∧
        exportProgressPct (exportElapsed start now) total ≤ 100) ∧
      exportProgressPct (exportElapsed start now) total ≤
        exportProgressPct (exportElapsed start now2) total ∧
      (total ≤ exportElapsed start now →
        exportProgressPct (exportElapsed start now) total = 100) ∧
      (animateContinues (exportElapsed start now) total true = false ↔
        total ≤ exportElapsed start now) := by
  intro start now now2 total htot hsn hnn
  have he0 : 0 ≤ exportElapsed start now := by
    rw [exportElapsed]
    exact div_nonneg (by linarith) (by norm_num)
  have hee : exportElapsed start now ≤ exportElapsed start now2 := by
    rw [exportElapsed, exportElapsed]
    exact (div_le_div_iff_of_pos_right (by norm_num : (0:ℚ) < 1000)).mpr (by linarith)
  refine ⟨⟨?_, ?_⟩, ?_, ?_, ?_⟩
  · rw [exportProgressPct]
    have : (0:ℚ) ≤ min (exportElapsed start now / total) 1 :=
      le_min (div_nonneg he0 htot.le) (by norm_num)
    linarith
  · rw [exportProgressPct]
    have : min (exportElapsed start now / total) 1 ≤ 1 := min_le_right _ _
    linarith
  · rw [exportProgressPct, exportProgressPct]
    have hdiv : exportElapsed start now / total ≤ exportElapsed start now2 / total :=
      (div_le_div_iff_of_pos_right htot).mpr hee
    have hmin : min (exportElapsed start now / total) 1 ≤
        min (exportElapsed start now2 / total) 1 :=
      min_le_min hdiv (le_refl 1)
    linarith
  · intro hge
    rw [exportProgressPct]
    have h1 : (1:ℚ) ≤ exportElapsed start now / total := (one_le_div htot).mpr hge
    rw [min_eq_right h1]
    norm_num
  · rw [animateContinues]
    constructor
    · intro h
      by_contra hc
      push_neg at hc
      simp [hc] at h
    · intro h
      simp [not_lt.mpr h]

/-- C2 witness for the amended theorem at a concrete schedule: frames
at 0 and 16 ms of a 30 second track. -/
theorem export_clock_spec_witness :
    (0 ≤ exportProgressPct (exportElapsed 0 16) 30 ∧
      exportProgressPct (exportElapsed 0 16) 30 ≤ 100) ∧
    exportProgressPct (exportElapsed 0 16) 30 ≤
      exportProgressPct (exportElapsed 0 32) 30 :=
  ⟨(export_clock_spec 0 16 32 30 (by norm_num) (by norm_num) (by norm_num)).1,
   (export_clock_spec 0 16 32 30 (by norm_num) (by norm_num) (by norm_num)).2.1⟩

/-- The user-visible export status, part_002 line 438 region: idle,
recording, processing, done or error. -/
inductive ExpStatus where
  | idle
  | recording
  | processing
  | done
  | error
deriving DecidableEq, Repr

/-- The MediaRecorder state as cancelExport inspects it: inactive or
actively recording. -/
inductive RecState where
  | inactive
  | active
deriving DecidableEq, Repr

/-- An asynchronous task pending on the host event loop: the onstop
event of a stopped recorder (part_002 lines 2711-2731), or the 500 ms
finalize timeout that the onstop handler schedules (lines 2718-2730). -/
inductive ExpTask where
  | onstopTask
  | finalizeTask
deriving DecidableEq, Repr

/-- The export pipeline state: React state (status, progress,
isExporting), the recorder and its buffered fraction of the track, the
pending animation timer, the queue of pending asynchronous tasks, audio
playback, and the fraction of the track contained in a file that has
been exposed for download via the anchor click of the onstop path
(none while no file has been offered). -/
structure ExportPipeline where
  status : ExpStatus
  progress : ℚ
  isExporting : Bool
  recState : RecState
  animTimer : Bool
  tasks : List ExpTask
  audioPlaying : Bool
  capturedFraction : ℚ
  download : Option ℚ
deriving DecidableEq, Repr

def exportIdle : ExportPipeline :=
  ⟨ExpStatus.idle, 0, false, RecState.inactive, false, [], false, 0, none⟩

/-- MediaRecorder.stop(): the recorder becomes inactive at once and an
onstop event is queued on the event loop, to run after the current
synchronous code returns. -/
def recorderStop (s : ExportPipeline) : ExportPipeline :=
  { s with recState := RecState.inactive, tasks := s.tasks ++ [ExpTask.onstopTask] }

/-- The successful setup path of startExport, part_002 lines 2637-2787:
with a track and audio stream present it sets recording status, zero
progress, starts the recorder and the frame loop, and restarts audio
playback from the beginning. -/
def startExport (s : ExportPipeline) : ExportPipeline :=
  { s with
    status := ExpStatus.recording
    progress := 0
    isExporting := true
    recState := RecState.active
    animTimer := true
    audioPlaying := true
    capturedFraction := 0
    download := none }

/-- The recorder buffering chunks while recording (ondataavailable every
100 ms, part_002 lines 2705-2709): after playing fraction f of the
track, the buffered chunks cover fraction f. -/
def recordChunk (f : ℚ) (s : ExportPipeline) : ExportPipeline :=
  { s with capturedFraction := f }

/-- cancelExport, part_002 lines 2796-2812, statement by statement: if
the recorder is not inactive, stop it (which queues its onstop event);
clear the pending frame timer; pause audio; then set isExporting false,
status idle and progress 0. -/
def cancelExport (s : ExportPipeline) : ExportPipeline :=
  let s1 := if s.recState = RecState.inactive then s else recorderStop s
  let s2 := { s1 with animTimer := false }
  let s3 := { s2 with audioPlaying := false }
  { s3 with isExporting := false, status := ExpStatus.idle, progress := 0 }

/-- Running one pending asynchronous task.  The onstop handler (part_002
lines 2711-2731) pauses audio, sets status processing and schedules the
finalize timeout; the finalize timeout builds the blob from whatever
chunks were buffered, clicks the download anchor (exposing a file
covering the captured fraction of the track), sets status done and
isExporting false. -/
def runTask (s : ExportPipeline) : ExpTask → ExportPipeline
  | ExpTask.onstopTask =>
    { s with
      audioPlaying := false
      status := ExpStatus.processing
      tasks := s.tasks ++ [ExpTask.finalizeTask] }
  | ExpTask.finalizeTask =>
    { s with
      download := some s.capturedFraction
      status := ExpStatus.done
      isExporting := false }

/-- The event loop running the oldest pending task, if any. -/
def processNextTask (s : ExportPipeline) : ExportPipeline :=
  match s.tasks with
  | [] => s
  | t :: rest => runTask { s with tasks := rest } t

/-- An export of a 30 second track cancelled one second in: start, let
the recorder buffer the first second (fraction 1/30), cancel. -/
def cancelledRun : ExportPipeline :=
  cancelExport (recordChunk (1/30) (startExport exportIdle))

/-- The same run after the event loop has drained the two tasks the
cancelled recorder left behind (onstop, then its finalize timeout). -/
def cancelledRunSettled : ExportPipeline :=
  processNextTask (processNextTask cancelledRun)

/-- C3. A run cancelled one second into a 30 second track ends, once
the event loop drains the onstop event that cancelExport itself queued
by stopping the recorder, in status done with a download of only
fraction 1/30 of the track: the cancelled run exposes an incomplete
file as done, contradicting the claim that done is reached only when
the full recording completed. -/
theorem cancelled_export_exposes_incomplete_file :
    cancelledRun.status = ExpStatus.idle ∧
    cancelledRunSettled.status = ExpStatus.done ∧
    cancelledRunSettled.download = some (1/30) ∧ (1/30 : ℚ) < 1 := by
  refine ⟨rfl, rfl, rfl, by norm_num⟩

/-- C4. cancelExport synchronously sets status idle, progress 0 and
clears the frame timer (and, being straight-line guarded code, cannot
throw from any state, modeled by its totality), but it leaks the
stopped recorder: its onstop event is still pending when cancelExport
returns, and when it fires the pipeline leaves idle again, moving to
processing and then done.  The encoder callback is thus not cleaned up,
contradicting the claim that no leaked encoder or timer remains. -/
theorem cancel_leaves_pending_encoder_callback :
    cancelledRun.status = ExpStatus.idle ∧
    cancelledRun.progress = 0 ∧
    cancelledRun.animTimer = false ∧
    cancelledRun.tasks = [ExpTask.onstopTask] ∧
    (processNextTask cancelledRun).status = ExpStatus.processing ∧
    cancelledRunSettled.status ≠ ExpStatus.idle := by
  refine ⟨rfl, rfl, rfl, rfl, rfl, ?_⟩
  intro h
  exact absurd h (by decide)

/-- The closed enumeration of visual effect variants, main-layout.tsx
lines 2880-2893: thirteen identifiers. -/
inductive VisualizerType where
  | bars
  | wave
  | circle
  | particles
  | spectrum
  | galaxy
  | dna
  | matrix
  | fireworks
  | aurora
  | vortex
  | lightning
  | spheres
deriving DecidableEq, Repr

/-- All thirteen variants, in declaration order. -/
def allVisualizerTypes : List VisualizerType :=
  [VisualizerType.bars, VisualizerType.wave, VisualizerType.circle,
   VisualizerType.particles, VisualizerType.spectrum, VisualizerType.galaxy,
   VisualizerType.dna, VisualizerType.matrix, VisualizerType.fireworks,
   VisualizerType.aurora, VisualizerType.vortex, VisualizerType.lightning,
   VisualizerType.spheres]

/-- The twelve draw routines the live animation loop closes over,
main-layout.tsx: drawBars, drawWave, drawCircle, drawParticles,
drawRing, drawGalaxy, drawDNA, drawMatrix, drawFireworks, drawAurora,
drawVortex, drawLightning. -/
inductive LiveRenderer where
  | drawBars
  | drawWave
  | drawCircle
  | drawParticles
  | drawRing
  | drawGalaxy
  | drawDNA
  | drawMatrix
  | drawFireworks
  | drawAurora
  | drawVortex
  | drawLightning
deriving DecidableEq, Repr

/-- The live renderer registry drawFunctions, main-layout.tsx lines
2475-2488, as the keyed lookup the dispatch performs at line 2490: the
object literal has entries for twelve of the thirteen variants and no
entry for spheres, so the lookup of spheres yields undefined (none)
and the guard at lines 2491-2493 silently skips drawing. -/
def drawFunctions : VisualizerType → Option LiveRenderer
  | VisualizerType.bars => some LiveRenderer.drawBars
  | VisualizerType.wave => some LiveRenderer.drawWave
  | VisualizerType.circle => some LiveRenderer.drawCircle
  | VisualizerType.particles => some LiveRenderer.drawParticles
  | VisualizerType.spectrum => some LiveRenderer.drawRing
  | VisualizerType.galaxy => some LiveRenderer.drawGalaxy
  | VisualizerType.dna => some LiveRenderer.drawDNA
  | VisualizerType.matrix => some LiveRenderer.drawMatrix
  | VisualizerType.fireworks => some LiveRenderer.drawFireworks
  | VisualizerType.aurora => some LiveRenderer.drawAurora
  | VisualizerType.vortex => some LiveRenderer.drawVortex
  | VisualizerType.lightning => some LiveRenderer.drawLightning
  | VisualizerType.spheres => none

/-- The selector list of src/app/effects/page.tsx lines 413-427, in
page order: it offers all thirteen variants, spheres included. -/
def visualizerSelectorList : List VisualizerType :=
  [VisualizerType.bars, VisualizerType.wave, VisualizerType.circle,
   VisualizerType.particles, VisualizerType.spectrum, VisualizerType.galaxy,
   VisualizerType.dna, VisualizerType.matrix, VisualizerType.fireworks,
   VisualizerType.aurora, VisualizerType.vortex, VisualizerType.lightning,
   VisualizerType.spheres]

/-- C6. The enumeration has thirteen variants and the selector offers
all thirteen, but the live renderer registry resolves a draw routine
for only twelve of them: the lookup of spheres yields none, so dispatch
does not resolve a renderer for every variant; this also contradicts
the Record type ascribed to drawFunctions, which promises an entry for
every member of the enumeration. -/
theorem registry_misses_spheres :
    allVisualizerTypes.length = 13 ∧
    VisualizerType.spheres ∈ visualizerSelectorList ∧
    drawFunctions VisualizerType.spheres = none ∧
    (allVisualizerTypes.filter (fun t => (drawFunctions t).isSome)).length = 12 := by
  refine ⟨rfl, by decide, rfl, by decide⟩

end SoundWave
